import Mathlib

/-
Shallow embedding of the cstore_fdw host-integration layer
(src/cstore_fdw.c, src/cstore_fdw.h): option parsing and validation,
table-size introspection, table-file deletion, and the scan-session
lifecycle.  Machine integers are modelled as Int with explicit 32-bit
range checks where the C code performs them; fallible C paths that call
ereport(ERROR) are modelled with Except.
-/

/-- Compression methods of the cstore file format (cstore_fdw.h, enum CompressionType). -/
inductive CompressionType where
  | COMPRESSION_TYPE_INVALID
  | COMPRESSION_NONE
  | COMPRESSION_PG_LZ
  | COMPRESSION_LZ4
  | COMPRESSION_ENC_LZ4
  | COMPRESSION_ENC_NONE
  deriving DecidableEq, Repr

/-- Limit STRIPE_ROW_COUNT_MINIMUM from cstore_fdw.h. -/
def STRIPE_ROW_COUNT_MINIMUM : Int := 1000

/-- Limit STRIPE_ROW_COUNT_MAXIMUM from cstore_fdw.h. -/
def STRIPE_ROW_COUNT_MAXIMUM : Int := 10000000

/-- Limit BLOCK_ROW_COUNT_MINIMUM from cstore_fdw.h. -/
def BLOCK_ROW_COUNT_MINIMUM : Int := 1000

/-- Limit BLOCK_ROW_COUNT_MAXIMUM from cstore_fdw.h. -/
def BLOCK_ROW_COUNT_MAXIMUM : Int := 100000

/-- Default DEFAULT_COMPRESSION_TYPE from cstore_fdw.h: COMPRESSION_NONE. -/
def DEFAULT_COMPRESSION_TYPE : CompressionType := CompressionType.COMPRESSION_NONE

/-- Default DEFAULT_STRIPE_ROW_COUNT from cstore_fdw.h. -/
def DEFAULT_STRIPE_ROW_COUNT : Int := 150000

/-- Default DEFAULT_BLOCK_ROW_COUNT from cstore_fdw.h. -/
def DEFAULT_BLOCK_ROW_COUNT : Int := 10000

/-- Fixed suffix CSTORE_FOOTER_FILE_SUFFIX from cstore_fdw.h. -/
def CSTORE_FOOTER_FILE_SUFFIX : String := ".footer"

/-- Characters the C-locale isspace accepts, as used by the host integer parser. -/
def isSpaceChar (c : Char) : Bool :=
  c = ' ' || c = '\t' || c = '\n' || c = '\r' || c = '\x0b' || c = '\x0c'

/-- Models the host function pg_atoi(s, sizeof(int32), 0): optional leading
whitespace, an optional sign, at least one digit, optional trailing whitespace;
any other input, or a value outside the signed 32-bit range, raises an error,
modelled as Option.none. -/
def pg_atoi (s : String) : Option Int :=
  let cs := s.toList.dropWhile (fun c => isSpaceChar c)
  let signAndRest : Int × List Char :=
    match cs with
    | '-' :: rest => (-1, rest)
    | '+' :: rest => (1, rest)
    | rest => (1, rest)
  let digits := signAndRest.2.takeWhile (fun c => c.isDigit)
  let rest := signAndRest.2.dropWhile (fun c => c.isDigit)
  if digits = [] then Option.none
  else if rest.dropWhile (fun c => isSpaceChar c) ≠ [] then Option.none
  else
    let magnitude : Nat := digits.foldl (fun a c => a * 10 + (Char.toNat c - 48)) 0
    let value : Int := signAndRest.1 * (magnitude : Int)
    if value < -(2 ^ 31) ∨ 2 ^ 31 - 1 < value then Option.none else some value

/-- ParseCompressionType (cstore_fdw.c 852-869) converts a string to a compression
type.  The C code compares with strncmp(s, literal, NAMEDATALEN); every literal is
shorter than NAMEDATALEN, so each comparison succeeds exactly on string equality,
which the embedding uses directly. -/
def ParseCompressionType (compressionTypeString : String) : CompressionType :=
  if compressionTypeString = "none" then CompressionType.COMPRESSION_NONE
  else if compressionTypeString = "pglz" then CompressionType.COMPRESSION_PG_LZ
  else if compressionTypeString = "lz4" then CompressionType.COMPRESSION_LZ4
  else if compressionTypeString = "enc_lz4" then CompressionType.COMPRESSION_ENC_LZ4
  else CompressionType.COMPRESSION_TYPE_INVALID

/-- Errors raised with ereport(ERROR) on the option-validation paths of
cstore_fdw.c.  invalidIntegerString stands for the error pg_atoi itself raises
on a malformed or out-of-range integer string. -/
inductive ValidationError where
  | invalidCompressionType
  | invalidIntegerString
  | invalidStripeRowCount
  | invalidBlockRowCount
  deriving DecidableEq, Repr

/-- Compression check of ValidateForeignTableOptions (cstore_fdw.c 792-799): a
supplied compression string that parses to the invalid type raises an error. -/
def checkCompressionOption (compressionTypeString : Option String) :
    Except ValidationError Unit :=
  match compressionTypeString with
  | some s =>
      if ParseCompressionType s = CompressionType.COMPRESSION_TYPE_INVALID then
        Except.error ValidationError.invalidCompressionType
      else Except.ok ()
  | Option.none => Except.ok ()

/-- Stripe row count check of ValidateForeignTableOptions (cstore_fdw.c 802-812):
pg_atoi the supplied string, then require the value to lie in
[STRIPE_ROW_COUNT_MINIMUM, STRIPE_ROW_COUNT_MAXIMUM]. -/
def checkStripeRowCountOption (stripeRowCountString : Option String) :
    Except ValidationError Unit :=
  match stripeRowCountString with
  | some s =>
      match pg_atoi s with
      | Option.none => Except.error ValidationError.invalidIntegerString
      | some stripeRowCount =>
          if stripeRowCount < STRIPE_ROW_COUNT_MINIMUM ∨
              STRIPE_ROW_COUNT_MAXIMUM < stripeRowCount then
            Except.error ValidationError.invalidStripeRowCount
          else Except.ok ()
  | Option.none => Except.ok ()

/-- Block row count check of ValidateForeignTableOptions (cstore_fdw.c 815-825):
pg_atoi the supplied string, then require the value to lie in
[BLOCK_ROW_COUNT_MINIMUM, BLOCK_ROW_COUNT_MAXIMUM]. -/
def checkBlockRowCountOption (blockRowCountString : Option String) :
    Except ValidationError Unit :=
  match blockRowCountString with
  | some s =>
      match pg_atoi s with
      | Option.none => Except.error ValidationError.invalidIntegerString
      | some blockRowCount =>
          if blockRowCount < BLOCK_ROW_COUNT_MINIMUM ∨
              BLOCK_ROW_COUNT_MAXIMUM < blockRowCount then
            Except.error ValidationError.invalidBlockRowCount
          else Except.ok ()
  | Option.none => Except.ok ()

/-- ValidateForeignTableOptions (cstore_fdw.c 785-826): no check on the filename,
then the compression, stripe row count and block row count checks in program
order; the first ereport(ERROR) aborts the rest, modelled by Except sequencing. -/
def ValidateForeignTableOptions (filename compressionTypeString
    stripeRowCountString blockRowCountString : Option String) :
    Except ValidationError Unit :=
  let _ := filename
  match checkCompressionOption compressionTypeString with
  | Except.error e => Except.error e
  | Except.ok _ =>
      match checkStripeRowCountOption stripeRowCountString with
      | Except.error e => Except.error e
      | Except.ok _ => checkBlockRowCountOption blockRowCountString

/-- CStoreFdwOptions (cstore_fdw.h): resolved option values used when reading or
writing a cstore file. -/
structure CStoreFdwOptions where
  filename : String
  compressionType : CompressionType
  stripeRowCount : Int
  blockRowCount : Int
  deriving DecidableEq, Repr

/-- CStoreGetOptions (cstore_fdw.c 699-744): resolves each option, validating the
supplied strings, parsing the present ones and falling back to the defaults for
the absent ones.  The catalog lookups CStoreGetOptionValue and the default path
CStoreDefaultFilePath are host-side; the embedding takes their results as
arguments (one Option String per option and the computed default path). -/
def CStoreGetOptions (filenameOpt compressionTypeString stripeRowCountString
    blockRowCountString : Option String) (defaultFilePath : String) :
    Except ValidationError CStoreFdwOptions :=
  match ValidateForeignTableOptions filenameOpt compressionTypeString
      stripeRowCountString blockRowCountString with
  | Except.error e => Except.error e
  | Except.ok _ =>
      let compressionType :=
        match compressionTypeString with
        | some s => ParseCompressionType s
        | Option.none => DEFAULT_COMPRESSION_TYPE
      let parsedStripe : Except ValidationError Int :=
        match stripeRowCountString with
        | some s =>
            match pg_atoi s with
            | some n => Except.ok n
            | Option.none => Except.error ValidationError.invalidIntegerString
        | Option.none => Except.ok DEFAULT_STRIPE_ROW_COUNT
      let parsedBlock : Except ValidationError Int :=
        match blockRowCountString with
        | some s =>
            match pg_atoi s with
            | some n => Except.ok n
            | Option.none => Except.error ValidationError.invalidIntegerString
        | Option.none => Except.ok DEFAULT_BLOCK_ROW_COUNT
      match parsedStripe, parsedBlock with
      | Except.ok stripeRowCount, Except.ok blockRowCount =>
          Except.ok
            { filename := filenameOpt.getD defaultFilePath
              compressionType := compressionType
              stripeRowCount := stripeRowCount
              blockRowCount := blockRowCount }
      | Except.error e, _ => Except.error e
      | _, Except.error e => Except.error e

/-- Errors raised with ereport(ERROR) by cstore_table_size. -/
inductive TableSizeError where
  | notCStoreTable
  | statFailed (path : String)
  deriving DecidableEq, Repr

/-- cstore_table_size (cstore_fdw.c 535-577).  stat is the file-system view: some
size when stat succeeds on a path, Option.none when it fails.  cstoreTable is the
result of the CStoreTable catalog check and dataFilename the resolved filename
option; both are computed by host-side code the function calls first. -/
def cstore_table_size (cstoreTable : Bool) (stat : String → Option Int)
    (dataFilename : String) : Except TableSizeError Int :=
  if cstoreTable = false then Except.error TableSizeError.notCStoreTable
  else
    match stat dataFilename with
    | Option.none => Except.error (TableSizeError.statFailed dataFilename)
    | some dataFileSize =>
        let footerFilename := dataFilename ++ CSTORE_FOOTER_FILE_SUFFIX
        match stat footerFilename with
        | Option.none => Except.error (TableSizeError.statFailed footerFilename)
        | some footerFileSize => Except.ok (dataFileSize + footerFileSize)

/-- Observable outcome of DeleteCStoreTableFiles: the unlink calls it makes in
order, the paths it emits ereport(WARNING) messages for, and whether it raised
ereport(ERROR) (it never does). -/
structure DeleteResult where
  attempted : List String
  warnings : List String
  fatalError : Option String
  deriving DecidableEq, Repr

/-- DeleteCStoreTableFiles (cstore_fdw.c 505-528): builds the footer path by
appending CSTORE_FOOTER_FILE_SUFFIX to the data filename, unlinks the footer
file, warns on failure, then unlinks the data file, warning on failure.
unlinkOK tells whether unlink succeeds on a path.  ereport(WARNING) returns to
the caller, so the second unlink runs whatever the first returned. -/
def DeleteCStoreTableFiles (unlinkOK : String → Bool) (filename : String) :
    DeleteResult :=
  let tableFooterFilename := filename ++ CSTORE_FOOTER_FILE_SUFFIX
  let footerFileRemoved := unlinkOK tableFooterFilename
  let footerWarnings := if footerFileRemoved then [] else [tableFooterFilename]
  let dataFileRemoved := unlinkOK filename
  let dataWarnings := if dataFileRemoved then [] else [filename]
  { attempted := [tableFooterFilename, filename]
    warnings := footerWarnings ++ dataWarnings
    fatalError := Option.none }

/-- StripeMetadata (cstore_fdw.h): location of one stripe, stored in the footer. -/
structure StripeMetadata where
  fileOffset : Nat
  skipListLength : Nat
  dataLength : Nat
  footerLength : Nat
  deriving DecidableEq, Repr

/-- TableFooter (cstore_fdw.h): the footer of a cstore file. -/
structure TableFooter where
  stripeMetadataList : List StripeMetadata
  blockRowCount : Nat
  deriving DecidableEq, Repr

/-- ColumnBlockData (cstore_fdw.h): decoded block of one column; values are
abstracted to Nat in this model. -/
structure ColumnBlockData where
  existsArray : List Bool
  valueArray : List Nat
  deriving DecidableEq, Repr

/-- ColumnData (cstore_fdw.h): the blocks of one column in a stripe. -/
structure ColumnData where
  blockDataArray : List ColumnBlockData
  deriving DecidableEq, Repr

/-- StripeData (cstore_fdw.h): decoded data for one row stripe. -/
structure StripeData where
  columnCount : Nat
  rowCount : Nat
  columnDataArray : List ColumnData
  deriving DecidableEq, Repr

/-- TableReadState (cstore_fdw.h): state of a cstore file read session.  The
FILE handle and memory context are host resources; the target filename stands
for the open file. -/
structure TableReadState where
  filename : String
  tableFooter : TableFooter
  projectedColumnList : List Nat
  whereClauseList : List Nat
  stripeData : Option StripeData
  readStripeCount : Nat
  stripeReadRowCount : Nat
  deriving DecidableEq, Repr

/-- Modelled from the spec: CStoreBeginRead is declared in cstore_fdw.h but its
body (the reader module) is absent from src/.  Per section 4.6 a read session
opens the footer of the target and starts with no cursor state: no decoded
stripe, zero stripes read, zero rows read from the current stripe.  readFooter
stands for CStoreReadFooter applied to the footer path of the target. -/
def CStoreBeginRead (readFooter : String → TableFooter) (filename : String)
    (projectedColumnList whereClauseList : List Nat) : TableReadState :=
  { filename := filename
    tableFooter := readFooter filename
    projectedColumnList := projectedColumnList
    whereClauseList := whereClauseList
    stripeData := Option.none
    readStripeCount := 0
    stripeReadRowCount := 0 }

/-- Modelled from the spec: CStoreReadNextRow is declared in cstore_fdw.h but its
body (the reader module) is absent from src/.  Per section 4.6 the reader yields
rows in stripe order: while the current decoded stripe has unread rows it serves
the next one; otherwise it decodes the next stripe listed in the footer, and it
reports end of data once no stripes remain.  stripeRowCount gives the row count
of the stripe at each footer index, learned on decode; row values are abstracted
away, the model tracks only the cursor movement. -/
def CStoreReadNextRow (stripeRowCount : Nat → Nat) (state : TableReadState) :
    Bool × TableReadState :=
  match state.stripeData with
  | some stripe =>
      if state.stripeReadRowCount < stripe.rowCount then
        (true, { state with stripeReadRowCount := state.stripeReadRowCount + 1 })
      else if state.readStripeCount < state.tableFooter.stripeMetadataList.length then
        let rowCount := stripeRowCount state.readStripeCount
        if 0 < rowCount then
          (true, { state with
                    stripeData := some { columnCount := state.projectedColumnList.length
                                         rowCount := rowCount
                                         columnDataArray := [] }
                    readStripeCount := state.readStripeCount + 1
                    stripeReadRowCount := 1 })
        else (false, state)
      else (false, state)
  | Option.none =>
      if state.readStripeCount < state.tableFooter.stripeMetadataList.length then
        let rowCount := stripeRowCount state.readStripeCount
        if 0 < rowCount then
          (true, { state with
                    stripeData := some { columnCount := state.projectedColumnList.length
                                         rowCount := rowCount
                                         columnDataArray := [] }
                    readStripeCount := state.readStripeCount + 1
                    stripeReadRowCount := 1 })
        else (false, state)
      else (false, state)

/-- TableWriteState (cstore_fdw.h): state of a cstore file write session.  The
FILE handle, tuple descriptor, comparison functions and memory context are host
resources and are dropped from the model. -/
structure TableWriteState where
  filename : String
  compressionType : CompressionType
  stripeMaxRowCount : Nat
  tableFooter : TableFooter
  stripeData : Option StripeData
  currentFileOffset : Nat
  deriving DecidableEq, Repr

/-- Modelled from the spec: CStoreBeginWrite is declared in cstore_fdw.h but its
body (the writer module) is absent from src/.  Per sections 4.5 and 4.6 opening
a write session creates the data file and begins an in-memory footer with an
empty stripe list and the configured block row count; the in-progress stripe
buffer starts empty. -/
def CStoreBeginWrite (filename : String) (compressionType : CompressionType)
    (stripeMaxRowCount blockRowCount : Nat) : TableWriteState :=
  { filename := filename
    compressionType := compressionType
    stripeMaxRowCount := stripeMaxRowCount
    tableFooter := { stripeMetadataList := [], blockRowCount := blockRowCount }
    stripeData := Option.none
    currentFileOffset := 0 }

/-- Modelled from the spec: CStoreEndWrite is declared in cstore_fdw.h but its
body (the writer module) is absent from src/.  Per sections 4.3 and 4.6 closing
a write session flushes the buffered stripe only when it is non-empty, appending
its metadata to the footer list, and then writes the footer; the returned footer
is what the footer file holds.  Stream byte lengths are abstracted in this
model (the data length stands in for the flushed stripe's extent). -/
def CStoreEndWrite (state : TableWriteState) : TableFooter :=
  match state.stripeData with
  | Option.none => state.tableFooter
  | some stripe =>
      { state.tableFooter with
          stripeMetadataList := state.tableFooter.stripeMetadataList ++
            [{ fileOffset := state.currentFileOffset
               skipListLength := 0
               dataLength := stripe.rowCount
               footerLength := 0 }] }

/-- ForeignScanState as used by the scan callbacks of cstore_fdw.c: the plan
carries the filename (through the options), the projected column list and the
qual list; fdw_state holds the read session when one is open. -/
structure ForeignScanState where
  filename : String
  columnList : List Nat
  whereClauseList : List Nat
  fdw_state : Option TableReadState
  deriving DecidableEq, Repr

/-- CStoreBeginForeignScan (cstore_fdw.c 1131-1160): when the executor flags ask
for EXPLAIN only it does nothing; otherwise it opens a read session with
CStoreBeginRead on the table's file, column list and qual list, storing it in
fdw_state. -/
def CStoreBeginForeignScan (readFooter : String → TableFooter)
    (scanState : ForeignScanState) (explainOnly : Bool) : ForeignScanState :=
  if explainOnly then scanState
  else
    { scanState with
        fdw_state := some (CStoreBeginRead readFooter scanState.filename
          scanState.columnList scanState.whereClauseList) }

/-- CStoreEndForeignScan (cstore_fdw.c 1195-1201): when a read session is open,
CStoreEndRead releases it; fdw_state no longer holds any cursor state. -/
def CStoreEndForeignScan (scanState : ForeignScanState) : ForeignScanState :=
  match scanState.fdw_state with
  | some _ => { scanState with fdw_state := Option.none }
  | Option.none => scanState

/-- CStoreReScanForeignScan (cstore_fdw.c 1204-1209): ends the current scan and
begins a new one with executor flags 0, which is not EXPLAIN only. -/
def CStoreReScanForeignScan (readFooter : String → TableFooter)
    (scanState : ForeignScanState) : ForeignScanState :=
  CStoreBeginForeignScan readFooter (CStoreEndForeignScan scanState) false

/-- Claim C1: parsing a compression-type configuration string yields a valid
compression kind exactly when the string is one of the four named values, each
mapping to its own distinct kind; every other string parses to the invalid kind,
and option validation on such a string raises the invalid-compression-type
configuration error rather than coercing the value. -/
theorem parseCompressionType_valid_iff (s : String) :
    (ParseCompressionType s ≠ CompressionType.COMPRESSION_TYPE_INVALID ↔
      (s = "none" ∨ s = "pglz" ∨ s = "lz4" ∨ s = "enc_lz4")) ∧
    ParseCompressionType "none" = CompressionType.COMPRESSION_NONE ∧
    ParseCompressionType "pglz" = CompressionType.COMPRESSION_PG_LZ ∧
    ParseCompressionType "lz4" = CompressionType.COMPRESSION_LZ4 ∧
    ParseCompressionType "enc_lz4" = CompressionType.COMPRESSION_ENC_LZ4 ∧
    (ParseCompressionType s = CompressionType.COMPRESSION_TYPE_INVALID →
      ∀ fn ss bs, ValidateForeignTableOptions fn (some s) ss bs =
        Except.error ValidationError.invalidCompressionType) := by
  refine ⟨?_, by decide, by decide, by decide, by decide, ?_⟩
  · unfold ParseCompressionType
    split_ifs with h1 h2 h3 h4 <;> simp_all
  · intro hinv fn ss bs
    simp [ValidateForeignTableOptions, checkCompressionOption, hinv]

/-- Witness for C1 at a concrete unrecognized string. -/
theorem parseCompressionType_valid_iff_witness :
    ValidateForeignTableOptions Option.none (some "zstd") Option.none Option.none =
      Except.error ValidationError.invalidCompressionType := by
  exact (parseCompressionType_valid_iff "zstd").2.2.2.2.2 (by decide)
    Option.none Option.none Option.none

/-- Claim C2: a supplied stripe_row_count or block_row_count option string whose
integer value is n is accepted exactly when n lies in the fixed range for that
option ([1000, 10000000] for stripes, [1000, 100000] for blocks); validation
performs no file access, and when both row-count options are absent it accepts
with no range check at all. -/
theorem validateOptions_row_count_ranges (fn : Option String) (s : String) (n : Int)
    (hparse : pg_atoi s = some n) :
    (ValidateForeignTableOptions fn Option.none (some s) Option.none =
        Except.ok () ↔
      STRIPE_ROW_COUNT_MINIMUM ≤ n ∧ n ≤ STRIPE_ROW_COUNT_MAXIMUM) ∧
    (ValidateForeignTableOptions fn Option.none Option.none (some s) =
        Except.ok () ↔
      BLOCK_ROW_COUNT_MINIMUM ≤ n ∧ n ≤ BLOCK_ROW_COUNT_MAXIMUM) ∧
    ValidateForeignTableOptions fn Option.none Option.none Option.none =
      Except.ok () := by
  refine ⟨?_, ?_, ?_⟩ <;>
    simp [ValidateForeignTableOptions, checkCompressionOption,
      checkStripeRowCountOption, checkBlockRowCountOption, hparse] <;>
    split_ifs with h <;> simp <;> omega

/-- Witness for C2 at the boundary value 1000. -/
theorem validateOptions_row_count_ranges_witness :
    ValidateForeignTableOptions Option.none Option.none (some "1000") Option.none =
      Except.ok () := by
  exact (validateOptions_row_count_ranges Option.none "1000" 1000 (by decide)).1.mpr
    (by decide)

/-- Claim C3: for a cstore table whose data file and footer file both stat
successfully, cstore_table_size returns exactly the sum of the two sizes that
stat reports on the two paths. -/
theorem cstore_table_size_sum (stat : String → Option Int) (dataFilename : String)
    (dataFileSize footerFileSize : Int)
    (hdata : stat dataFilename = some dataFileSize)
    (hfooter : stat (dataFilename ++ CSTORE_FOOTER_FILE_SUFFIX) = some footerFileSize) :
    cstore_table_size true stat dataFilename =
      Except.ok (dataFileSize + footerFileSize) := by
  simp [cstore_table_size, hdata, hfooter]

/-- Witness for C3 on a two-file file-system view. -/
theorem cstore_table_size_sum_witness :
    cstore_table_size true
      (fun p =>
        if p = "cstore_fdw/16384/16385" then some 8192
        else if p = "cstore_fdw/16384/16385.footer" then some 128
        else Option.none)
      "cstore_fdw/16384/16385" = Except.ok 8320 := by
  exact cstore_table_size_sum _ "cstore_fdw/16384/16385" 8192 128
    (by decide) (by decide)

/-- Claim C10: cstore_table_size returns a size exactly when the relation is a
cstore table and stat succeeds on both the data file and the footer file; in
every other case it raises an error and returns no number. -/
theorem cstore_table_size_ok_iff (cstoreTable : Bool) (stat : String → Option Int)
    (dataFilename : String) :
    (∃ n, cstore_table_size cstoreTable stat dataFilename = Except.ok n) ↔
      (cstoreTable = true ∧ (stat dataFilename).isSome ∧
        (stat (dataFilename ++ CSTORE_FOOTER_FILE_SUFFIX)).isSome) := by
  cases cstoreTable with
  | false => simp [cstore_table_size]
  | true =>
      cases hdata : stat dataFilename with
      | none => simp [cstore_table_size, hdata]
      | some d =>
          cases hfooter : stat (dataFilename ++ CSTORE_FOOTER_FILE_SUFFIX) with
          | none => simp [cstore_table_size, hdata, hfooter]
          | some f => simp [cstore_table_size, hdata, hfooter]


/-- Claim C9: when option resolution succeeds, each absent option received its
fixed default (compression kind none, stripe row count 150000, block row count
10000), and each provided option received the parsed value of its own string,
overriding the default. -/
theorem cstoreGetOptions_defaults_override
    (filenameOpt cs ss bs : Option String) (defaultFilePath : String)
    (opts : CStoreFdwOptions)
    (h : CStoreGetOptions filenameOpt cs ss bs defaultFilePath = Except.ok opts) :
    (cs = Option.none → opts.compressionType = DEFAULT_COMPRESSION_TYPE) ∧
    (ss = Option.none → opts.stripeRowCount = DEFAULT_STRIPE_ROW_COUNT) ∧
    (bs = Option.none → opts.blockRowCount = DEFAULT_BLOCK_ROW_COUNT) ∧
    (∀ s, cs = some s → opts.compressionType = ParseCompressionType s) ∧
    (∀ s, ss = some s → pg_atoi s = some opts.stripeRowCount) ∧
    (∀ s, bs = some s → pg_atoi s = some opts.blockRowCount) ∧
    DEFAULT_COMPRESSION_TYPE = CompressionType.COMPRESSION_NONE ∧
    DEFAULT_STRIPE_ROW_COUNT = 150000 ∧
    DEFAULT_BLOCK_ROW_COUNT = 10000 := by
  unfold CStoreGetOptions at h
  cases hval : ValidateForeignTableOptions filenameOpt cs ss bs with
  | error e => rw [hval] at h; exact absurd h (by simp)
  | ok u =>
      rw [hval] at h
      cases cs <;> cases ss <;> cases bs
      case none.none.none =>
        simp at h
        refine ⟨fun _ => ?_, fun _ => ?_, fun _ => ?_, by simp, by simp, by simp,
          rfl, rfl, rfl⟩ <;> rw [← h]
      case none.none.some b =>
        rcases hb : pg_atoi b with _ | nb <;> simp [hb] at h
        refine ⟨fun _ => ?_, fun _ => ?_, by simp, by simp, by simp,
          fun s hs => ?_, rfl, rfl, rfl⟩
        · rw [← h]
        · rw [← h]
        · cases hs; rw [← h]; exact hb
      case none.some.none a =>
        rcases ha : pg_atoi a with _ | na <;> simp [ha] at h
        refine ⟨fun _ => ?_, by simp, fun _ => ?_, by simp,
          fun s hs => ?_, by simp, rfl, rfl, rfl⟩
        · rw [← h]
        · rw [← h]
        · cases hs; rw [← h]; exact ha
      case none.some.some a b =>
        rcases ha : pg_atoi a with _ | na <;> rcases hb : pg_atoi b with _ | nb <;>
          simp [ha, hb] at h
        refine ⟨fun _ => ?_, by simp, by simp, by simp,
          fun s hs => ?_, fun s hs => ?_, rfl, rfl, rfl⟩
        · rw [← h]
        · cases hs; rw [← h]; exact ha
        · cases hs; rw [← h]; exact hb
      case some.none.none c =>
        simp at h
        refine ⟨by simp, fun _ => ?_, fun _ => ?_,
          fun s hs => ?_, by simp, by simp, rfl, rfl, rfl⟩
        · rw [← h]
        · rw [← h]
        · cases hs; rw [← h]
      case some.none.some c b =>
        rcases hb : pg_atoi b with _ | nb <;> simp [hb] at h
        refine ⟨by simp, fun _ => ?_, by simp,
          fun s hs => ?_, by simp, fun s hs => ?_, rfl, rfl, rfl⟩
        · rw [← h]
        · cases hs; rw [← h]
        · cases hs; rw [← h]; exact hb
      case some.some.none c a =>
        rcases ha : pg_atoi a with _ | na <;> simp [ha] at h
        refine ⟨by simp, by simp, fun _ => ?_,
          fun s hs => ?_, fun s hs => ?_, by simp, rfl, rfl, rfl⟩
        · rw [← h]
        · cases hs; rw [← h]
        · cases hs; rw [← h]; exact ha
      case some.some.some c a b =>
        rcases ha : pg_atoi a with _ | na <;> rcases hb : pg_atoi b with _ | nb <;>
          simp [ha, hb] at h
        refine ⟨by simp, by simp, by simp,
          fun s hs => ?_, fun s hs => ?_, fun s hs => ?_, rfl, rfl, rfl⟩
        · cases hs; rw [← h]
        · cases hs; rw [← h]; exact ha
        · cases hs; rw [← h]; exact hb

/-- Witness for C9: provided compression and stripe row count override their
defaults while the absent block row count falls back to 10000. -/
theorem cstoreGetOptions_defaults_override_witness :
    ({ filename := "f", compressionType := CompressionType.COMPRESSION_PG_LZ,
       stripeRowCount := 2000, blockRowCount := 10000 } : CStoreFdwOptions).compressionType
        = ParseCompressionType "pglz" ∧
    ({ filename := "f", compressionType := CompressionType.COMPRESSION_PG_LZ,
       stripeRowCount := 2000, blockRowCount := 10000 } : CStoreFdwOptions).blockRowCount
        = DEFAULT_BLOCK_ROW_COUNT := by
  have h := cstoreGetOptions_defaults_override Option.none (some "pglz") (some "2000")
    Option.none "f"
    { filename := "f", compressionType := CompressionType.COMPRESSION_PG_LZ,
      stripeRowCount := 2000, blockRowCount := 10000 } (by rfl)
  exact ⟨h.2.2.2.1 "pglz" rfl, h.2.2.1 rfl⟩

/-- Helper: a path never equals itself with the footer suffix appended. -/
theorem ne_append_footer_suffix (filename : String) :
    filename ≠ filename ++ CSTORE_FOOTER_FILE_SUFFIX := by
  intro h
  have hlen := congrArg String.length h
  rw [String.length_append] at hlen
  have hzero : CSTORE_FOOTER_FILE_SUFFIX.length = 0 := by omega
  exact absurd hzero (by decide)

/-- Claim C5: dropping a cstore table deletes its two files best-effort: the
function never raises an error, it attempts to unlink both the footer file and
the data file whatever the outcomes, and each of the two paths is warned about
exactly when its unlink failed. -/
theorem deleteCStoreTableFiles_best_effort (unlinkOK : String → Bool)
    (filename : String) :
    (DeleteCStoreTableFiles unlinkOK filename).fatalError = Option.none ∧
    (filename ++ CSTORE_FOOTER_FILE_SUFFIX) ∈
      (DeleteCStoreTableFiles unlinkOK filename).attempted ∧
    filename ∈ (DeleteCStoreTableFiles unlinkOK filename).attempted ∧
    ((filename ++ CSTORE_FOOTER_FILE_SUFFIX) ∈
        (DeleteCStoreTableFiles unlinkOK filename).warnings ↔
      unlinkOK (filename ++ CSTORE_FOOTER_FILE_SUFFIX) = false) ∧
    (filename ∈ (DeleteCStoreTableFiles unlinkOK filename).warnings ↔
      unlinkOK filename = false) := by
  have hne := ne_append_footer_suffix filename
  refine ⟨rfl, by simp [DeleteCStoreTableFiles], by simp [DeleteCStoreTableFiles],
    ?_, ?_⟩ <;>
    cases hf : unlinkOK (filename ++ CSTORE_FOOTER_FILE_SUFFIX) <;>
    cases hd : unlinkOK filename <;>
    simp [DeleteCStoreTableFiles, hf, hd, hne, Ne.symm hne]

/-- Claim C6: the footer file path is exactly the data file path with the fixed
suffix ".footer" appended, and both operations that derive it build it the same
way: deletion unlinks exactly filename ++ ".footer" then filename, and size
introspection consults the file system only at filename and at
filename ++ ".footer". -/
theorem footer_path_fixed_suffix (filename : String) :
    CSTORE_FOOTER_FILE_SUFFIX = ".footer" ∧
    (∀ unlinkOK, (DeleteCStoreTableFiles unlinkOK filename).attempted =
      [filename ++ ".footer", filename]) ∧
    (∀ (cstoreTable : Bool) (stat stat2 : String → Option Int),
      stat filename = stat2 filename →
      stat (filename ++ ".footer") = stat2 (filename ++ ".footer") →
      cstore_table_size cstoreTable stat filename =
        cstore_table_size cstoreTable stat2 filename) := by
  refine ⟨rfl, fun unlinkOK => rfl, ?_⟩
  intro cstoreTable stat stat2 hdata hfooter
  simp only [cstore_table_size, CSTORE_FOOTER_FILE_SUFFIX, hdata, hfooter]

/-- Witness for C6: the deletion path unlinks the derived footer path first. -/
theorem footer_path_fixed_suffix_witness :
    (DeleteCStoreTableFiles (fun _ => true) "data").attempted =
      ["data.footer", "data"] := by
  have h := (footer_path_fixed_suffix "data").2.1 (fun _ => true)
  simpa using h

/-- Claim C7: rescanning a foreign table ends the current read session and opens
a fresh one against the same target: the whole scan state after a rescan equals
that of a scan begun anew on the same plan, the read session held afterwards is
exactly a freshly opened one, and its cursor fields carry no survivors (zero
stripes read, zero rows read in the current stripe, no decoded stripe data),
whatever cursor state the previous session had reached. -/
theorem rescan_equals_fresh_scan (readFooter : String → TableFooter)
    (scanState : ForeignScanState) :
    CStoreReScanForeignScan readFooter scanState =
      CStoreBeginForeignScan readFooter scanState false ∧
    (CStoreReScanForeignScan readFooter scanState).fdw_state =
      some (CStoreBeginRead readFooter scanState.filename scanState.columnList
        scanState.whereClauseList) ∧
    (∀ readState,
      (CStoreReScanForeignScan readFooter scanState).fdw_state = some readState →
      readState.readStripeCount = 0 ∧ readState.stripeReadRowCount = 0 ∧
        readState.stripeData = Option.none) := by
  cases scanState with
  | mk filename columnList whereClauseList fdwState =>
      cases fdwState <;>
        refine ⟨rfl, rfl, ?_⟩ <;>
        · intro readState hread
          simp [CStoreReScanForeignScan, CStoreBeginForeignScan,
            CStoreEndForeignScan, CStoreBeginRead] at hread
          rw [← hread]
          exact ⟨rfl, rfl, rfl⟩

/-- Witness for C7: a rescan from a mid-scan cursor (two stripes read, three rows
into the current stripe, a decoded stripe held) restores the fresh-session state. -/
theorem rescan_equals_fresh_scan_witness :
    (CStoreReScanForeignScan
        (fun _ => { stripeMetadataList := [], blockRowCount := 10000 })
        { filename := "t"
          columnList := [1]
          whereClauseList := []
          fdw_state := some
            { filename := "t"
              tableFooter := { stripeMetadataList := [], blockRowCount := 10000 }
              projectedColumnList := [1]
              whereClauseList := []
              stripeData := some { columnCount := 1, rowCount := 5, columnDataArray := [] }
              readStripeCount := 2
              stripeReadRowCount := 3 } }).fdw_state =
      some (CStoreBeginRead
        (fun _ => { stripeMetadataList := [], blockRowCount := 10000 }) "t" [1] []) := by
  exact (rescan_equals_fresh_scan
    (fun _ => { stripeMetadataList := [], blockRowCount := 10000 })
    { filename := "t"
      columnList := [1]
      whereClauseList := []
      fdw_state := some
        { filename := "t"
          tableFooter := { stripeMetadataList := [], blockRowCount := 10000 }
          projectedColumnList := [1]
          whereClauseList := []
          stripeData := some { columnCount := 1, rowCount := 5, columnDataArray := [] }
          readStripeCount := 2
          stripeReadRowCount := 3 } }).2.1

/-- Claim C8: a write session opened and closed at once with zero rows written,
as the DDL end trigger does on CREATE FOREIGN TABLE, yields a footer whose
stripe list is empty, and a read session begun on that footer reports end of
data on the very first readNextRow call, whatever columns or quals the reader
asks for. -/
theorem zero_row_write_reads_empty (filename : String)
    (compressionType : CompressionType) (stripeMaxRowCount blockRowCount : Nat) :
    (CStoreEndWrite (CStoreBeginWrite filename compressionType stripeMaxRowCount
      blockRowCount)).stripeMetadataList = [] ∧
    (∀ stripeRowCount projectedColumnList whereClauseList,
      (CStoreReadNextRow stripeRowCount
        (CStoreBeginRead
          (fun _ => CStoreEndWrite (CStoreBeginWrite filename compressionType
            stripeMaxRowCount blockRowCount))
          filename projectedColumnList whereClauseList)).1 = false) := by
  refine ⟨rfl, ?_⟩
  intro stripeRowCount projectedColumnList whereClauseList
  simp [CStoreBeginWrite, CStoreEndWrite, CStoreBeginRead, CStoreReadNextRow]

/-- Counterexample to claim C4: option validation rejects a stripe row count of
exactly 1 together with a block row count of exactly 1 — they are below the
minima of 1000 — so this configuration is not accepted. -/
theorem row_count_one_rejected :
    ValidateForeignTableOptions Option.none Option.none (some "1") (some "1") =
      Except.error ValidationError.invalidStripeRowCount ∧
    ValidateForeignTableOptions Option.none Option.none Option.none (some "1") =
      Except.error ValidationError.invalidBlockRowCount := by
  constructor <;> rfl

/-- Amended claim C4: configuring a block row count bound of exactly 1 and a
stripe row count bound of exactly 1 is rejected by option validation with a
configuration error, since each bound's minimum is 1000; the smallest
configurable bounds, 1000 rows for both, are accepted. -/
theorem row_count_minimum_boundary :
    ValidateForeignTableOptions Option.none Option.none (some "1") (some "1") ≠
      Except.ok () ∧
    ValidateForeignTableOptions Option.none Option.none (some "1000") (some "1000") =
      Except.ok () ∧
    STRIPE_ROW_COUNT_MINIMUM = 1000 ∧ BLOCK_ROW_COUNT_MINIMUM = 1000 := by
  refine ⟨?_, rfl, rfl, rfl⟩
  intro h
  rw [show ValidateForeignTableOptions Option.none Option.none (some "1") (some "1") =
    Except.error ValidationError.invalidStripeRowCount from rfl] at h
  exact Except.noConfusion h
